import Mathlib

/-!
Verification of the key-derivation-and-formatting core of the
`terraform-provider-pbkdf2` provider (`internal/provider/key_resource.go`).

The Go code under verification calls into the Go standard library and
`golang.org/x/crypto`:
`crypto/sha256`, `crypto/sha512`, `crypto/hmac` (via `pbkdf2`),
`encoding/base64`, `encoding/binary`, and `golang.org/x/crypto/pbkdf2`.
These library primitives are embedded here as executable Lean functions,
faithful to their published algorithms (FIPS 180-4, RFC 2104, RFC 2898,
RFC 4648, and the `x/crypto/pbkdf2` source).  The `text/template` engine is
kept abstract as a fallible oracle, except for the provider's concrete
default format string, whose rendering is embedded directly.

Bytes are `Nat` values below 256; byte sequences are `List Nat`.
-/

set_option maxRecDepth 100000

namespace Pbkdf2Provider

/-- Truncation to a 32-bit word, the implicit wrap-around of Go `uint32`. -/
def w32 (x : Nat) : Nat := x % 4294967296

/-- Truncation to a 64-bit word, the implicit wrap-around of Go `uint64`. -/
def w64 (x : Nat) : Nat := x % 18446744073709551616

/-- 32-bit rotate right by `n` (for `x < 2^32`). -/
def rotr32 (n x : Nat) : Nat := w32 ((x >>> n) ||| (x <<< (32 - n)))

/-- 64-bit rotate right by `n` (for `x < 2^64`). -/
def rotr64 (n x : Nat) : Nat := w64 ((x >>> n) ||| (x <<< (64 - n)))

/-- Big-endian bytes of a 32-bit word, as in Go `binary.BigEndian.PutUint32`. -/
def be32 (x : Nat) : List Nat :=
  [x >>> 24 % 256, x >>> 16 % 256, x >>> 8 % 256, x % 256]

/-- Big-endian bytes of a 64-bit word, as in Go `binary.BigEndian.PutUint64`. -/
def be64 (x : Nat) : List Nat :=
  [x >>> 56 % 256, x >>> 48 % 256, x >>> 40 % 256, x >>> 32 % 256,
   x >>> 24 % 256, x >>> 16 % 256, x >>> 8 % 256, x % 256]

/-- Big-endian bytes of a 128-bit length field (SHA-512 padding). -/
def be128 (x : Nat) : List Nat :=
  be64 (x >>> 64) ++ be64 (x % 18446744073709551616)

/-- Group bytes into big-endian 32-bit words. -/
def toWords32 : List Nat → List Nat
  | a :: b :: c :: d :: rest => (a <<< 24 + b <<< 16 + c <<< 8 + d) :: toWords32 rest
  | _ => []

/-- Group bytes into big-endian 64-bit words. -/
def toWords64 : List Nat → List Nat
  | a :: b :: c :: d :: e :: f :: g :: h :: rest =>
      (a <<< 56 + b <<< 48 + c <<< 40 + d <<< 32 + e <<< 24 + f <<< 16 + g <<< 8 + h)
        :: toWords64 rest
  | _ => []

/-- Split a list into chunks of size `sz` (fuel-driven; `fuel ≥ l.length`). -/
def chunksAux (sz : Nat) : Nat → List Nat → List (List Nat)
  | 0, _ => []
  | _, [] => []
  | fuel + 1, l => l.take sz :: chunksAux sz fuel (l.drop sz)

/-- UTF-8 encoding of a single character, as Go `[]byte(string)` produces. -/
def utf8Bytes (c : Char) : List Nat :=
  let n := c.toNat
  if n < 128 then [n]
  else if n < 2048 then [192 + n / 64, 128 + n % 64]
  else if n < 65536 then [224 + n / 4096, 128 + n / 64 % 64, 128 + n % 64]
  else [240 + n / 262144, 128 + n / 4096 % 64, 128 + n / 64 % 64, 128 + n % 64]

/-- The byte sequence of a string, Go's `[]byte(s)` (UTF-8). -/
def strBytes (s : String) : List Nat := (s.toList.map utf8Bytes).flatten

/-! ### SHA-256 (`crypto/sha256`, FIPS 180-4) -/

/-- The SHA-256 round constants. -/
def sha256K : List Nat :=
  [1116352408, 1899447441, 3049323471, 3921009573, 961987163,
   1508970993, 2453635748, 2870763221, 3624381080, 310598401,
   607225278, 1426881987, 1925078388, 2162078206, 2614888103,
   3248222580, 3835390401, 4022224774, 264347078, 604807628,
   770255983, 1249150122, 1555081692, 1996064986, 2554220882,
   2821834349, 2952996808, 3210313671, 3336571891, 3584528711,
   113926993, 338241895, 666307205, 773529912, 1294757372,
   1396182291, 1695183700, 1986661051, 2177026350, 2456956037,
   2730485921, 2820302411, 3259730800, 3345764771, 3516065817,
   3600352804, 4094571909, 275423344, 430227734, 506948616,
   659060556, 883997877, 958139571, 1322822218, 1537002063,
   1747873779, 1955562222, 2024104815, 2227730452, 2361852424,
   2428436474, 2756734187, 3204031479, 3329325298]

/-- The SHA-256 initial hash value. -/
def sha256H0 : List Nat :=
  [1779033703, 3144134277, 1013904242, 2773480762, 1359893119,
   2600822924, 528734635, 1541459225]

/-- Message-schedule extension: append words until 64 are present. -/
def sha256Extend : Nat → List Nat → List Nat
  | 0, w => w
  | n + 1, w =>
      let t := w.length
      let s0 := rotr32 7 (w.getD (t - 15) 0) ^^^ rotr32 18 (w.getD (t - 15) 0) ^^^
                (w.getD (t - 15) 0 >>> 3)
      let s1 := rotr32 17 (w.getD (t - 2) 0) ^^^ rotr32 19 (w.getD (t - 2) 0) ^^^
                (w.getD (t - 2) 0 >>> 10)
      sha256Extend n (w ++ [w32 (w.getD (t - 16) 0 + s0 + w.getD (t - 7) 0 + s1)])

/-- One SHA-256 round: update the eight working variables with `(k, w)`. -/
def sha256Round : Nat × Nat × Nat × Nat × Nat × Nat × Nat × Nat → Nat × Nat →
    Nat × Nat × Nat × Nat × Nat × Nat × Nat × Nat
  | (a, b, c, d, e, f, g, h), (k, wt) =>
      let s1 := rotr32 6 e ^^^ rotr32 11 e ^^^ rotr32 25 e
      let ch := (e &&& f) ^^^ ((4294967295 - e) &&& g)
      let t1 := w32 (h + s1 + ch + k + wt)
      let s0 := rotr32 2 a ^^^ rotr32 13 a ^^^ rotr32 22 a
      let mj := (a &&& b) ^^^ (a &&& c) ^^^ (b &&& c)
      let t2 := w32 (s0 + mj)
      (w32 (t1 + t2), a, b, c, w32 (d + t1), e, f, g)

/-- SHA-256 compression of one 64-byte block into the 8-word state. -/
def sha256Compress (st : List Nat) (block : List Nat) : List Nat :=
  let w := sha256Extend 48 (toWords32 block)
  let init := (st.getD 0 0, st.getD 1 0, st.getD 2 0, st.getD 3 0,
               st.getD 4 0, st.getD 5 0, st.getD 6 0, st.getD 7 0)
  let r := (sha256K.zip w).foldl sha256Round init
  [w32 (st.getD 0 0 + r.1), w32 (st.getD 1 0 + r.2.1), w32 (st.getD 2 0 + r.2.2.1),
   w32 (st.getD 3 0 + r.2.2.2.1), w32 (st.getD 4 0 + r.2.2.2.2.1),
   w32 (st.getD 5 0 + r.2.2.2.2.2.1), w32 (st.getD 6 0 + r.2.2.2.2.2.2.1),
   w32 (st.getD 7 0 + r.2.2.2.2.2.2.2)]

/-- SHA-256 padding: append `0x80`, zeros to 56 mod 64, then the 64-bit bit length. -/
def sha256Pad (msg : List Nat) : List Nat :=
  msg ++ 128 :: List.replicate ((119 - msg.length % 64) % 64) 0 ++ be64 (8 * msg.length)

/-- The SHA-256 hash of a byte sequence (Go `sha256.New` / `sha256.Sum256`). -/
def sha256 (msg : List Nat) : List Nat :=
  let padded := sha256Pad msg
  ((chunksAux 64 padded.length padded).foldl sha256Compress sha256H0).map be32 |>.flatten

/-! ### SHA-512 (`crypto/sha512`, FIPS 180-4) -/

/-- The SHA-512 round constants. -/
def sha512K : List Nat :=
  [4794697086780616226, 8158064640168781261, 13096744586834688815,
   16840607885511220156, 4131703408338449720, 6480981068601479193,
   10538285296894168987, 12329834152419229976, 15566598209576043074,
   1334009975649890238, 2608012711638119052, 6128411473006802146,
   8268148722764581231, 9286055187155687089, 11230858885718282805,
   13951009754708518548, 16472876342353939154, 17275323862435702243,
   1135362057144423861, 2597628984639134821, 3308224258029322869,
   5365058923640841347, 6679025012923562964, 8573033837759648693,
   10970295158949994411, 12119686244451234320, 12683024718118986047,
   13788192230050041572, 14330467153632333762, 15395433587784984357,
   489312712824947311, 1452737877330783856, 2861767655752347644,
   3322285676063803686, 5560940570517711597, 5996557281743188959,
   7280758554555802590, 8532644243296465576, 9350256976987008742,
   10552545826968843579, 11727347734174303076, 12113106623233404929,
   14000437183269869457, 14369950271660146224, 15101387698204529176,
   15463397548674623760, 17586052441742319658, 1182934255886127544,
   1847814050463011016, 2177327727835720531, 2830643537854262169,
   3796741975233480872, 4115178125766777443, 5681478168544905931,
   6601373596472566643, 7507060721942968483, 8399075790359081724,
   8693463985226723168, 9568029438360202098, 10144078919501101548,
   10430055236837252648, 11840083180663258601, 13761210420658862357,
   14299343276471374635, 14566680578165727644, 15097957966210449927,
   16922976911328602910, 17689382322260857208, 500013540394364858,
   748580250866718886, 1242879168328830382, 1977374033974150939,
   2944078676154940804, 3659926193048069267, 4368137639120453308,
   4836135668995329356, 5532061633213252278, 6448918945643986474,
   6902733635092675308, 7801388544844847127]

/-- The SHA-512 initial hash value. -/
def sha512H0 : List Nat :=
  [7640891576956012808, 13503953896175478587, 4354685564936845355,
   11912009170470909681, 5840696475078001361, 11170449401992604703,
   2270897969802886507, 6620516959819538809]

/-- SHA-512 message-schedule extension: append words until 80 are present. -/
def sha512Extend : Nat → List Nat → List Nat
  | 0, w => w
  | n + 1, w =>
      let t := w.length
      let s0 := rotr64 1 (w.getD (t - 15) 0) ^^^ rotr64 8 (w.getD (t - 15) 0) ^^^
                (w.getD (t - 15) 0 >>> 7)
      let s1 := rotr64 19 (w.getD (t - 2) 0) ^^^ rotr64 61 (w.getD (t - 2) 0) ^^^
                (w.getD (t - 2) 0 >>> 6)
      sha512Extend n (w ++ [w64 (w.getD (t - 16) 0 + s0 + w.getD (t - 7) 0 + s1)])

/-- One SHA-512 round: update the eight working variables with `(k, w)`. -/
def sha512Round : Nat × Nat × Nat × Nat × Nat × Nat × Nat × Nat → Nat × Nat →
    Nat × Nat × Nat × Nat × Nat × Nat × Nat × Nat
  | (a, b, c, d, e, f, g, h), (k, wt) =>
      let s1 := rotr64 14 e ^^^ rotr64 18 e ^^^ rotr64 41 e
      let ch := (e &&& f) ^^^ ((18446744073709551615 - e) &&& g)
      let t1 := w64 (h + s1 + ch + k + wt)
      let s0 := rotr64 28 a ^^^ rotr64 34 a ^^^ rotr64 39 a
      let mj := (a &&& b) ^^^ (a &&& c) ^^^ (b &&& c)
      let t2 := w64 (s0 + mj)
      (w64 (t1 + t2), a, b, c, w64 (d + t1), e, f, g)

/-- SHA-512 compression of one 128-byte block into the 8-word state. -/
def sha512Compress (st : List Nat) (block : List Nat) : List Nat :=
  let w := sha512Extend 64 (toWords64 block)
  let init := (st.getD 0 0, st.getD 1 0, st.getD 2 0, st.getD 3 0,
               st.getD 4 0, st.getD 5 0, st.getD 6 0, st.getD 7 0)
  let r := (sha512K.zip w).foldl sha512Round init
  [w64 (st.getD 0 0 + r.1), w64 (st.getD 1 0 + r.2.1), w64 (st.getD 2 0 + r.2.2.1),
   w64 (st.getD 3 0 + r.2.2.2.1), w64 (st.getD 4 0 + r.2.2.2.2.1),
   w64 (st.getD 5 0 + r.2.2.2.2.2.1), w64 (st.getD 6 0 + r.2.2.2.2.2.2.1),
   w64 (st.getD 7 0 + r.2.2.2.2.2.2.2)]

/-- SHA-512 padding: append `0x80`, zeros to 112 mod 128, then the 128-bit bit length. -/
def sha512Pad (msg : List Nat) : List Nat :=
  msg ++ 128 :: List.replicate ((239 - msg.length % 128) % 128) 0 ++ be128 (8 * msg.length)

/-- The SHA-512 hash of a byte sequence (Go `sha512.New` / `sha512.Sum512`). -/
def sha512 (msg : List Nat) : List Nat :=
  let padded := sha512Pad msg
  ((chunksAux 128 padded.length padded).foldl sha512Compress sha512H0).map be64 |>.flatten

/-! ### The hash-primitive interface and the provider's registry

Go's `hash.Hash` exposes the hash function plus its `Size` and `BlockSize`;
`getHashAlgorithm` below is the provider's registry
(`key_resource.go` lines 128-137). -/

/-- A streaming hash primitive, the shape Go's `hash.Hash` factories provide:
the hash function itself, its block size, and its output size. -/
structure HashPrimitive where
  hash : List Nat → List Nat
  blockSize : Nat
  size : Nat

/-- The primitive built by Go `sha256.New`. -/
def sha256New : HashPrimitive := ⟨sha256, 64, 32⟩

/-- The primitive built by Go `sha512.New`. -/
def sha512New : HashPrimitive := ⟨sha512, 128, 64⟩

/-- The provider's hash-algorithm registry `getHashAlgorithm`: a case-sensitive
switch on the name, returning the derived-key length and the hash factory,
with a silent default to SHA-256. -/
def getHashAlgorithm (hashFunc : String) : Nat × HashPrimitive :=
  match hashFunc with
  | "sha256" => (32, sha256New)
  | "sha512" => (64, sha512New)
  | _ => (32, sha256New)

/-! ### HMAC (`crypto/hmac`, RFC 2104) -/

/-- HMAC over a hash primitive: keys longer than the block size are hashed,
shorter ones zero-padded; then `H((k ^ opad) ∥ H((k ^ ipad) ∥ msg))`. -/
def hmac (h : HashPrimitive) (key msg : List Nat) : List Nat :=
  let k0 := if h.blockSize < key.length then h.hash key else key
  let k := k0 ++ List.replicate (h.blockSize - k0.length) 0
  h.hash ((k.map fun b => b ^^^ 0x5c) ++ h.hash ((k.map fun b => b ^^^ 0x36) ++ msg))

/-! ### `bin` and `b64enc`, the provider's template helpers -/

/-- The `uint64(data)` conversion Go applies inside `bin`: the argument taken
modulo `2^64` (two's complement for negative values). -/
def uint64Of (data : Int) : Nat := (data % 18446744073709551616).toNat

/-- The provider's `bin` helper (`key_resource.go` lines 118-122): write
`uint64(data)` big-endian into an 8-byte buffer and return the slice
`bs[8-len:]`.  The slice expression panics unless `0 ≤ len ≤ 8`; a panic is
modelled as `none`. -/
def bin (len : Int) (data : Int) : Option (List Nat) :=
  if 0 ≤ len ∧ len ≤ 8 then some ((be64 (uint64Of data)).drop (8 - len.toNat))
  else none

/-- The standard base64 alphabet (RFC 4648). -/
def b64Alphabet : List Char :=
  "ABCDEFGHIJKLMNOPQRSTUVWXYZabcdefghijklmnopqrstuvwxyz0123456789+/".toList

/-- The base64 digit for a 6-bit value. -/
def b64Char (n : Nat) : Char := b64Alphabet.getD n 'A'

/-- Encode bytes in groups of three, padding the final partial group with
`=` (fuel-driven; `fuel ≥ l.length`). -/
def b64encAux : Nat → List Nat → List Char
  | 0, _ => []
  | _, [] => []
  | fuel + 1, a :: b :: c :: rest =>
      let n := a <<< 16 + b <<< 8 + c
      b64Char (n >>> 18) :: b64Char (n >>> 12 % 64) :: b64Char (n >>> 6 % 64) ::
        b64Char (n % 64) :: b64encAux fuel rest
  | _, [a, b] =>
      let n := a <<< 16 + b <<< 8
      [b64Char (n >>> 18), b64Char (n >>> 12 % 64), b64Char (n >>> 6 % 64), '=']
  | _, [a] =>
      let n := a <<< 16
      [b64Char (n >>> 18), b64Char (n >>> 12 % 64), '=', '=']

/-- The provider's `b64enc` helper (`key_resource.go` lines 124-126):
`base64.StdEncoding.EncodeToString`, standard padded base64. -/
def b64enc (data : List Nat) : String := String.mk (b64encAux data.length data)

/-! ### PBKDF2 (`golang.org/x/crypto/pbkdf2`, RFC 2898) -/

/-- Pointwise XOR of two byte sequences of equal length (`T[x] ^= U[x]`). -/
def xorBytes (a b : List Nat) : List Nat := (a.zip b).map fun p => p.1 ^^^ p.2

/-- The inner loop of `pbkdf2.Key`: from the latest `U_j` and the running
XOR `acc`, perform `n` further PRF applications, XOR-ing each into `acc`. -/
def pbkdf2FAux (prf : List Nat → List Nat) : Nat → List Nat → List Nat → List Nat
  | 0, _, acc => acc
  | n + 1, u, acc =>
      let v := prf u
      pbkdf2FAux prf n v (xorBytes acc v)

/-- One output block `T = F(P, S, c, i)` of `pbkdf2.Key`:
`U_1 = PRF(salt ∥ INT_BE32(i))`, then `c - 1` further iterations XOR-ed in. -/
def pbkdf2F (prf : List Nat → List Nat) (salt : List Nat) (iter blockIdx : Nat) : List Nat :=
  let u1 := prf (salt ++ be32 blockIdx)
  pbkdf2FAux prf (iter - 1) u1 u1

/-- `pbkdf2.Key` from `golang.org/x/crypto/pbkdf2`: the PRF is HMAC keyed by
the password, `numBlocks = ⌈keyLen / hashLen⌉` blocks are produced for
1-based block indices, concatenated, and truncated with `dk[:keyLen]`. -/
def pbkdf2Key (password salt : List Nat) (iter keyLen : Nat) (h : HashPrimitive) :
    List Nat :=
  let prf := hmac h password
  let hashLen := h.size
  let numBlocks := (keyLen + hashLen - 1) / hashLen
  (((List.range numBlocks).map fun i => pbkdf2F prf salt iter (i + 1)).flatten).take keyLen

/-- `n`-fold application of the PRF. -/
def prfIter (prf : List Nat → List Nat) : Nat → List Nat → List Nat
  | 0, u => u
  | n + 1, u => prfIter prf n (prf u)

/-- One PBKDF2 block as the spec words it: the list `U_1, …, U_c` of
successive PRF iterates (`iterations` applications of the keyed hash in
total), XOR-folded together. -/
def pbkdf2SpecBlock (prf : List Nat → List Nat) (salt : List Nat) (iter blockIdx : Nat) :
    List Nat :=
  let u1 := prf (salt ++ be32 blockIdx)
  (((List.range (iter - 1)).map fun j => prfIter prf (j + 1) u1).foldl xorBytes u1)

/-- PBKDF2 as described by the spec (§4.3): per output block apply the keyed
hash `iterations` times, concatenate blocks until `outputLength` bytes are
produced, then truncate to exactly `outputLength` bytes. -/
def pbkdf2Spec (prf : List Nat → List Nat) (salt : List Nat) (iter outLen hashLen : Nat) :
    List Nat :=
  (((List.range ((outLen + hashLen - 1) / hashLen)).map fun i =>
      pbkdf2SpecBlock prf salt iter (i + 1)).flatten).take outLen

/-! ### The provider's `generate` (`key_resource.go` lines 139-187)

The plugin-framework plumbing (`Plan.Get`, `rand.Read`) and the
`text/template` engine are external effects; they enter the model as
oracles.  Everything else — registry lookup, salt construction, key
derivation, the error-propagation control flow, and the exact set of
state attributes written — is translated directly from the source. -/

/-- The plan record decoded by `req.Plan.Get` (the computed attributes
`salt`, `key`, `result` are outputs, not plan inputs). -/
structure KeyResourceData where
  Iterations : Int
  Format : String
  Password : String
  HashAlgorithm : String
  SaltLength : Int
deriving DecidableEq

/-- The context the provider hands to `formatTemplate.Execute`
(`toFmt` in the source). -/
structure toFmt where
  Iterations : Int
  Salt : List Nat
  Key : List Nat
deriving DecidableEq

/-- A value written into Terraform state: int64 attributes, string
attributes, or the raw-byte strings `string(salt)` / `string(dk)`. -/
inductive AttrValue
  | int (i : Int)
  | str (s : String)
  | bytes (b : List Nat)
deriving DecidableEq

/-- The response produced by `generate`: the state attributes written via
`SetAttribute`, and the diagnostics added. -/
structure KeyResponse where
  state : List (String × AttrValue)
  diagnostics : List (String × String)
deriving DecidableEq

/-- The `text/template` engine as a fallible oracle: parsing a format string
(`Parse`), and executing it on a context (`Execute`).  Per `text/template`
semantics, helper panics inside `Execute` are recovered by the engine's
`safeCall` and surface as execution errors. -/
structure TemplateOracle where
  parse : String → Except String Unit
  exec : String → toFmt → Except String String

/-- The salt construction in `generate` (lines 149-150): `make([]byte, n)`
filled by `rand.Read`, modelled over a byte source `rng`. -/
def saltGen (rng : Nat → Nat) (n : Nat) : List Nat :=
  (List.range n).map fun i => rng i % 256

/-- The context `generate` builds for `formatTemplate.Execute` (lines
167-171): the planned iteration count, the generated salt, and the key
derived by `pbkdf2.Key` with the registry's length and factory. -/
def execContext (plan : KeyResourceData) (rng : Nat → Nat) : toFmt :=
  let r := getHashAlgorithm plan.HashAlgorithm
  let salt := saltGen rng plan.SaltLength.toNat
  ⟨plan.Iterations, salt, pbkdf2Key (strBytes plan.Password) salt plan.Iterations.toNat r.1 r.2⟩

/-- The provider's `generate`: decode the plan, look up the hash algorithm,
draw `SaltLength` random bytes, derive the key with `pbkdf2.Key`, parse and
execute the format template, and only then write the eight state
attributes.  Each failing step adds its diagnostic and returns with no
attribute written. -/
def generate (planGet : Except String KeyResourceData)
    (randRead : Except String (Nat → Nat)) (tmpl : TemplateOracle) : KeyResponse :=
  match planGet with
  | .error e => ⟨[], [("Plan Error", e)]⟩
  | .ok plan =>
    match randRead with
    | .error e => ⟨[], [("Salt Error", e)]⟩
    | .ok rng =>
      let ctx := execContext plan rng
      match tmpl.parse plan.Format with
      | .error e => ⟨[], [("Format Error", e)]⟩
      | .ok _ =>
        match tmpl.exec plan.Format ctx with
        | .error e => ⟨[], [("Format Error", e)]⟩
        | .ok result =>
          ⟨[("iterations", .int plan.Iterations), ("format", .str plan.Format),
            ("password", .str plan.Password), ("hash_algorithm", .str plan.HashAlgorithm),
            ("salt_length", .int plan.SaltLength), ("salt", .bytes ctx.Salt),
            ("key", .bytes ctx.Key), ("result", .str result)], []⟩

/-- Rendering of the provider's default `format` (schema default, line 54):
the template applies printf with verb `"%s:%s"` to `b64enc .Salt` and
`b64enc .Key`, i.e. it joins the two base64 strings with a colon. -/
def renderDefaultFormat (d : toFmt) : String := b64enc d.Salt ++ ":" ++ b64enc d.Key

/-- The low-order `n` bytes of the big-endian encoding of a natural number
(the spec's contract for `bin`, §4.4). -/
def lowBytesBE : Nat → Nat → List Nat
  | 0, _ => []
  | n + 1, v => lowBytesBE n (v / 256) ++ [v % 256]

/-! ## Lemmas -/

/-- Dropping the first `8 - len` bytes of the big-endian 8-byte encoding
leaves exactly the `len` low-order bytes. -/
theorem be64_drop_eq_lowBytesBE (len : Nat) (hlen : len ≤ 8) (v : Nat) :
    (be64 v).drop (8 - len) = lowBytesBE len v := by
  interval_cases len <;>
    simp [be64, lowBytesBE, Nat.shiftRight_eq_div_pow, Nat.div_div_eq_div_mul]

/-- Compression of one block returns an 8-word state. -/
theorem sha256Compress_length (st block : List Nat) : (sha256Compress st block).length = 8 :=
  rfl

/-- Compression of one block returns an 8-word state. -/
theorem sha512Compress_length (st block : List Nat) : (sha512Compress st block).length = 8 :=
  rfl

/-- Folding a state-size-preserving compression over any block list keeps
the 8-word state size. -/
theorem foldl_compress_length (f : List Nat → List Nat → List Nat)
    (hf : ∀ s b, (f s b).length = 8) :
    ∀ (bs : List (List Nat)) (s : List Nat), s.length = 8 → (bs.foldl f s).length = 8
  | [], _, hs => hs
  | b :: bs, s, _hs => foldl_compress_length f hf bs (f s b) (hf s b)

/-- Flattening a map whose images all have length `L` yields `l.length * L`
bytes. -/
theorem flatten_map_length {α : Type} (g : α → List Nat) (L : Nat)
    (hg : ∀ x, (g x).length = L) :
    ∀ l : List α, ((l.map g).flatten).length = l.length * L
  | [] => by simp
  | x :: xs => by
      simp [flatten_map_length g L hg xs, hg x, Nat.succ_mul, Nat.add_comm]

/-- SHA-256 digests are 32 bytes long. -/
theorem sha256_length (msg : List Nat) : (sha256 msg).length = 32 := by
  unfold sha256
  rw [flatten_map_length be32 4 (fun _ => rfl),
    foldl_compress_length sha256Compress sha256Compress_length _ sha256H0 rfl]

/-- SHA-512 digests are 64 bytes long. -/
theorem sha512_length (msg : List Nat) : (sha512 msg).length = 64 := by
  unfold sha512
  rw [flatten_map_length be64 8 (fun _ => rfl),
    foldl_compress_length sha512Compress sha512Compress_length _ sha512H0 rfl]

/-- HMAC-SHA256 values are 32 bytes long. -/
theorem hmac_sha256_length (key msg : List Nat) : (hmac sha256New key msg).length = 32 :=
  sha256_length _

/-- HMAC-SHA512 values are 64 bytes long. -/
theorem hmac_sha512_length (key msg : List Nat) : (hmac sha512New key msg).length = 64 :=
  sha512_length _

/-- `⌈k / L⌉ * L` blocks of size `L` cover `k` bytes. -/
theorem le_ceilDiv_mul (k L : Nat) (hL : 0 < L) : k ≤ (k + L - 1) / L * L := by
  have h1 := Nat.div_add_mod (k + L - 1) L
  have h2 := Nat.mod_lt (k + L - 1) hL
  rw [Nat.mul_comm]
  omega

/-- The inner PBKDF2 loop preserves the PRF output length. -/
theorem pbkdf2FAux_length (prf : List Nat → List Nat) (L : Nat)
    (hprf : ∀ u, (prf u).length = L) :
    ∀ (n : Nat) (u acc : List Nat), acc.length = L → (pbkdf2FAux prf n u acc).length = L
  | 0, _, _, hacc => hacc
  | n + 1, u, acc, hacc =>
      pbkdf2FAux_length prf L hprf n (prf u) (xorBytes acc (prf u))
        (by simp [xorBytes, hacc, hprf u])

/-- Each PBKDF2 output block has the PRF output length. -/
theorem pbkdf2F_length (prf : List Nat → List Nat) (L : Nat)
    (hprf : ∀ u, (prf u).length = L) (salt : List Nat) (iter i : Nat) :
    (pbkdf2F prf salt iter i).length = L :=
  pbkdf2FAux_length prf L hprf _ _ _ (hprf _)

/-- `pbkdf2.Key` returns exactly `keyLen` bytes whenever the PRF has the
declared positive output size. -/
theorem pbkdf2Key_length (password salt : List Nat) (iter keyLen : Nat) (h : HashPrimitive)
    (hprf : ∀ m, (hmac h password m).length = h.size) (hsize : 0 < h.size) :
    (pbkdf2Key password salt iter keyLen h).length = keyLen := by
  unfold pbkdf2Key
  rw [List.length_take,
    flatten_map_length _ h.size (fun i => pbkdf2F_length _ h.size hprf salt iter (i + 1)),
    List.length_range]
  exact Nat.min_eq_left (le_ceilDiv_mul keyLen h.size hsize)

/-- The accumulator form of the `pbkdf2.Key` inner loop equals the spec's
XOR-fold over the list of PRF iterates. -/
theorem pbkdf2FAux_eq_foldl (prf : List Nat → List Nat) :
    ∀ (n : Nat) (u acc : List Nat),
      pbkdf2FAux prf n u acc =
        ((List.range n).map fun j => prfIter prf (j + 1) u).foldl xorBytes acc := by
  intro n
  induction n with
  | zero => intro u acc; rfl
  | succ n ih =>
      intro u acc
      rw [List.range_succ_eq_map]
      simp only [List.map_cons, List.foldl_cons, List.map_map]
      rw [show pbkdf2FAux prf (n + 1) u acc
            = pbkdf2FAux prf n (prf u) (xorBytes acc (prf u)) from rfl]
      rw [ih (prf u) (xorBytes acc (prf u))]
      rw [show List.map ((fun j => prfIter prf (j + 1) u) ∘ Nat.succ) (List.range n)
            = List.map (fun j => prfIter prf (j + 1) (prf u)) (List.range n) from
          List.map_congr_left fun a _ => rfl]
      exact rfl

/-- Each `pbkdf2.Key` block equals the spec's block. -/
theorem pbkdf2F_eq_specBlock (prf : List Nat → List Nat) (salt : List Nat) (iter i : Nat) :
    pbkdf2F prf salt iter i = pbkdf2SpecBlock prf salt iter i :=
  pbkdf2FAux_eq_foldl prf (iter - 1) _ _

/-- `pbkdf2.Key` refines the spec's PBKDF2 description. -/
theorem pbkdf2Key_eq_spec (password salt : List Nat) (iter L : Nat) (h : HashPrimitive) :
    pbkdf2Key password salt iter L h = pbkdf2Spec (hmac h password) salt iter L h.size := by
  simp only [pbkdf2Key, pbkdf2Spec]
  congr 1
  congr 1
  exact List.map_congr_left fun i _ => pbkdf2F_eq_specBlock _ salt iter (i + 1)

/-- A template parse failure yields exactly the `Format Error` diagnostic
and an empty state. -/
theorem generate_parse_error (plan : KeyResourceData) (rng : Nat → Nat)
    (t : TemplateOracle) (e : String) (hp : t.parse plan.Format = .error e) :
    generate (.ok plan) (.ok rng) t = ⟨[], [("Format Error", e)]⟩ := by
  simp [generate, hp]

/-- A template execution failure yields exactly the `Format Error`
diagnostic and an empty state. -/
theorem generate_exec_error (plan : KeyResourceData) (rng : Nat → Nat)
    (t : TemplateOracle) (e : String) (hp : t.parse plan.Format = .ok ())
    (hx : t.exec plan.Format (execContext plan rng) = .error e) :
    generate (.ok plan) (.ok rng) t = ⟨[], [("Format Error", e)]⟩ := by
  simp [generate, hp, hx]

/-! ## Claims -/

/-- C3.  Algorithm selection: the registry maps `"sha256"` to `(32, sha256.New)`,
`"sha512"` to `(64, sha512.New)` (case-sensitive), and every other string
silently falls back to `(32, sha256.New)`. -/
theorem claim_C3_algorithm_selection :
    getHashAlgorithm "sha256" = (32, sha256New) ∧
    getHashAlgorithm "sha512" = (64, sha512New) ∧
    ∀ s : String, s ≠ "sha256" → s ≠ "sha512" → getHashAlgorithm s = (32, sha256New) := by
  refine ⟨rfl, rfl, fun s h256 h512 => ?_⟩
  unfold getHashAlgorithm
  split <;> simp_all

/-- Witness for C3 at the unrecognized name `"md5"`. -/
theorem claim_C3_witness : getHashAlgorithm "md5" = (32, sha256New) :=
  claim_C3_algorithm_selection.2.2 "md5" (by decide) (by decide)

/-- C4.  For every `len ≤ 8` and value in `uint64` range, `bin` returns
exactly the `len` low-order bytes of the big-endian encoding of the value;
in particular `bin 2 100000 = [0x86, 0xA0]`. -/
theorem claim_C4_bin_low_order_bytes :
    (∀ (len v : Nat), len ≤ 8 → v < 18446744073709551616 →
        bin (len : Int) (v : Int) = some (lowBytesBE len v)) ∧
    bin 2 100000 = some [0x86, 0xA0] := by
  constructor
  · intro len v hlen hv
    have hc : (0 : Int) ≤ (len : Int) ∧ (len : Int) ≤ 8 := by
      constructor <;> omega
    have hu : uint64Of (v : Int) = v := by
      unfold uint64Of
      rw [Int.emod_eq_of_lt (by omega) (by exact_mod_cast hv)]
      exact Int.toNat_natCast v
    rw [bin, if_pos hc, hu, Int.toNat_natCast, be64_drop_eq_lowBytesBE len hlen v]
  · decide

/-- Witness for C4 at `len = 3`, `v = 66051`. -/
theorem claim_C4_witness :
    bin (3 : Int) (66051 : Int) = some (lowBytesBE 3 66051) :=
  claim_C4_bin_low_order_bytes.1 3 66051 (by decide) (by decide)

/-- C9.  `bin` is partial: the slice `bs[8-len:]` of the 8-byte buffer is out
of bounds (a panic, modelled as `none`) exactly when `len > 8` or `len < 0`;
for `0 ≤ len ≤ 8` a byte sequence is returned. -/
theorem claim_C9_bin_out_of_bounds :
    (∀ len data : Int, 8 < len ∨ len < 0 → bin len data = none) ∧
    ∀ len data : Int, 0 ≤ len → len ≤ 8 → (bin len data).isSome = true := by
  constructor
  · intro len data h
    rw [bin, if_neg (by omega)]
  · intro len data h0 h8
    rw [bin, if_pos ⟨h0, h8⟩]
    rfl

/-- Witness for C9: `bin 9` panics, `bin 8` does not. -/
theorem claim_C9_witness :
    bin (9 : Int) (5 : Int) = none ∧ (bin (8 : Int) (5 : Int)).isSome = true :=
  ⟨claim_C9_bin_out_of_bounds.1 9 5 (by decide), claim_C9_bin_out_of_bounds.2 8 5 (by decide) (by decide)⟩

/-- C10.  `bin` interprets its value argument modulo `2^64`: for negative
`v` in `int64` range and `n ≤ 8` it returns the `n` low-order bytes of the
two's-complement (`uint64`) representation `2^64 + v`; in particular
`bin 2 (-1) = [0xFF, 0xFF]`. -/
theorem claim_C10_bin_twos_complement :
    (∀ (v : Int) (n : Nat), -9223372036854775808 ≤ v → v < 0 → n ≤ 8 →
        bin (n : Int) v = some (lowBytesBE n (18446744073709551616 + v).toNat)) ∧
    bin 2 (-1) = some [0xFF, 0xFF] := by
  constructor
  · intro v n hlo hneg hn
    have hc : (0 : Int) ≤ (n : Int) ∧ (n : Int) ≤ 8 := by constructor <;> omega
    have hu : uint64Of v = (18446744073709551616 + v).toNat := by
      unfold uint64Of
      congr 1
      omega
    rw [bin, if_pos hc, hu, Int.toNat_natCast,
      be64_drop_eq_lowBytesBE n hn ((18446744073709551616 + v).toNat)]
  · decide

/-- Witness for C10 at `v = -2`, `n = 1`. -/
theorem claim_C10_witness :
    bin ((1 : Nat) : Int) (-2 : Int) = some (lowBytesBE 1 (18446744073709551616 + (-2)).toNat) :=
  claim_C10_bin_twos_complement.1 (-2) 1 (by decide) (by decide) (by decide)

/-- C5 fails as stated: the published expected string ends in forty `A`s
followed by `==`, but base64 of 32 zero bytes is forty-three `A`s followed
by a single `=` (44 characters, as base64 output length is a multiple of 4). -/
theorem claim_C5_counterexample :
    ¬ (renderDefaultFormat ⟨100000, List.replicate 16 0, List.replicate 32 0⟩ =
       "AAAAAAAAAAAAAAAAAAAAAA==:AAAAAAAAAAAAAAAAAAAAAAAAAAAAAAAAAAAAAAAA==") := by
  decide

/-- C5 (amended).  `b64enc` is standard padded base64, and rendering the
default template with salt = 16 zero bytes and key = 32 zero bytes yields
`"AAAAAAAAAAAAAAAAAAAAAA=="`, a colon, and then base64 of the 32 zero bytes,
which is forty-three `A`s followed by `=`. -/
theorem claim_C5_amended_render :
    renderDefaultFormat ⟨100000, List.replicate 16 0, List.replicate 32 0⟩ =
      "AAAAAAAAAAAAAAAAAAAAAA==:AAAAAAAAAAAAAAAAAAAAAAAAAAAAAAAAAAAAAAAAAAA=" := by
  decide

/-- C1.  The key derivation implements standard PBKDF2: for every password,
salt, hash primitive, and positive iterations and output length, it equals
the spec-level description (per block, `iterations` applications of the
keyed hash XOR-ed together; blocks concatenated; truncated to the output
length), and the SHA-256 known-answer vector for
("password", "salt", 1, 32) holds. -/
theorem claim_C1_pbkdf2_standard :
    (∀ (password salt : List Nat) (h : HashPrimitive) (iter L : Nat),
        1 ≤ iter → 1 ≤ L →
        pbkdf2Key password salt iter L h = pbkdf2Spec (hmac h password) salt iter L h.size) ∧
    pbkdf2Key (strBytes "password") (strBytes "salt") 1 32 sha256New =
      [0x12, 0x0f, 0xb6, 0xcf, 0xfc, 0xf8, 0xb3, 0x2c, 0x43, 0xe7, 0x22, 0x52, 0x56, 0xc4,
       0xf8, 0x37, 0xa8, 0x65, 0x48, 0xc9, 0x2c, 0xcc, 0x35, 0x48, 0x08, 0x05, 0x98, 0x7c,
       0xb7, 0x0b, 0xe1, 0x7b] :=
  ⟨fun password salt h iter L _ _ => pbkdf2Key_eq_spec password salt iter L h, by decide⟩

/-- Witness for C1 at iterations 2, output length 3. -/
theorem claim_C1_witness :
    pbkdf2Key [1] [2] 2 3 sha256New = pbkdf2Spec (hmac sha256New [1]) [2] 2 3 sha256New.size :=
  claim_C1_pbkdf2_standard.1 [1] [2] sha256New 2 3 (by decide) (by decide)

/-- C2.  Length contract: the salt generator returns exactly `n` bytes;
`pbkdf2.Key` returns exactly `L` bytes for every output length `L` (given
the PRF's declared positive output size); with the registry's pair the
derived key's length is the registered output length, which is always
32 or 64. -/
theorem claim_C2_length_contract :
    (∀ (rng : Nat → Nat) (n : Nat), (saltGen rng n).length = n) ∧
    (∀ (password salt : List Nat) (iter L : Nat) (h : HashPrimitive),
        (∀ m, (hmac h password m).length = h.size) → 0 < h.size →
        (pbkdf2Key password salt iter L h).length = L) ∧
    (∀ (password salt : List Nat) (iter : Nat) (alg : String),
        (pbkdf2Key password salt iter (getHashAlgorithm alg).1
            (getHashAlgorithm alg).2).length = (getHashAlgorithm alg).1) ∧
    (∀ alg : String, (getHashAlgorithm alg).1 = 32 ∨ (getHashAlgorithm alg).1 = 64) := by
  refine ⟨fun rng n => by simp [saltGen], pbkdf2Key_length, fun password salt iter alg => ?_,
    fun alg => ?_⟩
  · unfold getHashAlgorithm
    split
    · exact pbkdf2Key_length password salt iter 32 sha256New
        (hmac_sha256_length password) (by decide)
    · exact pbkdf2Key_length password salt iter 64 sha512New
        (hmac_sha512_length password) (by decide)
    · exact pbkdf2Key_length password salt iter 32 sha256New
        (hmac_sha256_length password) (by decide)
  · unfold getHashAlgorithm
    split <;> simp

/-- Witness for C2 at salt length 5 and key length 7. -/
theorem claim_C2_witness :
    (saltGen (fun i => i) 5).length = 5 ∧
    (pbkdf2Key [] [] 1 7 sha256New).length = 7 :=
  ⟨claim_C2_length_contract.1 (fun i => i) 5,
   claim_C2_length_contract.2.1 [] [] 1 7 sha256New (hmac_sha256_length []) (by decide)⟩

/-- C6.  Error atomicity: whatever outcome the fallible steps have, a
response with a diagnostic carries no state attributes; and each failing
step — plan decoding, the random source, template parse, template
execution — yields exactly its diagnostic and an empty state. -/
theorem claim_C6_error_atomicity :
    ∀ (pg : Except String KeyResourceData) (rr : Except String (Nat → Nat))
      (t : TemplateOracle) (e : String),
      ((generate pg rr t).diagnostics ≠ [] → (generate pg rr t).state = []) ∧
      (pg = .error e → generate pg rr t = ⟨[], [("Plan Error", e)]⟩) ∧
      (∀ plan, pg = .ok plan → rr = .error e →
        generate pg rr t = ⟨[], [("Salt Error", e)]⟩) ∧
      (∀ plan rng, pg = .ok plan → rr = .ok rng → t.parse plan.Format = .error e →
        generate pg rr t = ⟨[], [("Format Error", e)]⟩) ∧
      (∀ plan rng, pg = .ok plan → rr = .ok rng → t.parse plan.Format = .ok () →
        t.exec plan.Format (execContext plan rng) = .error e →
        generate pg rr t = ⟨[], [("Format Error", e)]⟩) := by
  intro pg rr t e
  cases pg with
  | error e' => simp [generate]
  | ok plan =>
    cases rr with
    | error e' => simp [generate]
    | ok rng =>
      cases hp : t.parse plan.Format with
      | error e' => simp [generate, hp]
      | ok u =>
        cases hx : t.exec plan.Format (execContext plan rng) with
        | error e' => simp [generate, hp, hx]
        | ok res => simp [generate, hp, hx]

/-- Witness for C6: a failing plan decode produces the diagnostic and an
empty state. -/
theorem claim_C6_witness :
    generate (Except.error "boom") (Except.ok fun i => i)
      ⟨fun _ => Except.ok (), fun _ _ => Except.ok "r"⟩ = ⟨[], [("Plan Error", "boom")]⟩ :=
  (claim_C6_error_atomicity (Except.error "boom") (Except.ok fun i => i)
    ⟨fun _ => Except.ok (), fun _ _ => Except.ok "r"⟩ "boom").2.1 rfl

/-- C7.  Determinism: two runs of the key derivation on identical inputs are
byte-identical, and two runs of the whole derivation-plus-formatting
pipeline on identical inputs (the same randomness and template engine
included) produce identical responses. -/
theorem claim_C7_determinism :
    (∀ (password salt : List Nat) (iter L : Nat) (h : HashPrimitive) (r1 r2 : List Nat),
        pbkdf2Key password salt iter L h = r1 → pbkdf2Key password salt iter L h = r2 →
        r1 = r2) ∧
    (∀ (pg : Except String KeyResourceData) (rr : Except String (Nat → Nat))
        (t : TemplateOracle) (r1 r2 : KeyResponse),
        generate pg rr t = r1 → generate pg rr t = r2 → r1 = r2) :=
  ⟨fun _ _ _ _ _ _ _ h1 h2 => h1.symm.trans h2,
   fun _ _ _ _ _ h1 h2 => h1.symm.trans h2⟩

/-- Witness for C7: two evaluations of the KAT-prefix derivation agree. -/
theorem claim_C7_witness :
    pbkdf2Key (strBytes "password") (strBytes "salt") 1 4 sha256New = [0x12, 0x0f, 0xb6, 0xcf] :=
  claim_C7_determinism.1 (strBytes "password") (strBytes "salt") 1 4 sha256New
    (pbkdf2Key (strBytes "password") (strBytes "salt") 1 4 sha256New)
    [0x12, 0x0f, 0xb6, 0xcf] rfl (by decide)

/-- C8.  Template execution errors are never swallowed: an execution-time
failure (e.g. a helper invocation that panics inside the engine, recovered
by `text/template` as an error) produces exactly the `Format Error`
diagnostic and no output, the same shape a parse error produces. -/
theorem claim_C8_exec_errors_reported :
    (∀ (pg : Except String KeyResourceData) (rr : Except String (Nat → Nat))
        (t : TemplateOracle) (plan : KeyResourceData) (rng : Nat → Nat) (e : String),
        pg = .ok plan → rr = .ok rng → t.parse plan.Format = .ok () →
        t.exec plan.Format (execContext plan rng) = .error e →
        generate pg rr t = ⟨[], [("Format Error", e)]⟩) ∧
    (∀ (pg : Except String KeyResourceData) (rr : Except String (Nat → Nat))
        (t : TemplateOracle) (plan : KeyResourceData) (rng : Nat → Nat) (e : String),
        pg = .ok plan → rr = .ok rng → t.parse plan.Format = .error e →
        generate pg rr t = ⟨[], [("Format Error", e)]⟩) :=
  ⟨fun pg rr t plan rng e h1 h2 h3 h4 => by
    subst h1; subst h2; exact generate_exec_error plan rng t e h3 h4,
   fun pg rr t plan rng e h1 h2 h3 => by
    subst h1; subst h2; exact generate_parse_error plan rng t e h3⟩

/-- Witness for C8: an execution error surfaces as the `Format Error`
diagnostic with no state written. -/
theorem claim_C8_witness :
    generate (Except.ok ⟨1, "f", "p", "sha256", 1⟩) (Except.ok fun i => i)
      ⟨fun _ => Except.ok (), fun _ _ => Except.error "helper panic"⟩ =
      ⟨[], [("Format Error", "helper panic")]⟩ :=
  claim_C8_exec_errors_reported.1 (Except.ok ⟨1, "f", "p", "sha256", 1⟩)
    (Except.ok fun i => i) ⟨fun _ => Except.ok (), fun _ _ => Except.error "helper panic"⟩
    ⟨1, "f", "p", "sha256", 1⟩ (fun i => i) "helper panic" rfl rfl rfl rfl

end Pbkdf2Provider



